import Mathlib

/-!
# Verification of the `sumry` summarization pipeline

Shallow embedding of `src/sumry/readers.py` (type detection and the four
format readers) together with the pieces of `src/sumry/cli.py` that the
claims touch.

Modelling conventions:
* File parsing is delegated to pandas / geopandas in the source; the
  embedding therefore takes the library-produced tabular structure
  (`DataFrame`, `GeoDataFrame`, `ExcelFile`) as input.  Library-computed
  display strings (formatted memory usage, formatted bounds) are carried
  as opaque string fields of those structures; no claim inspects them.
* Python exceptions (the `IndexError` from `value_counts().head(1).index[0]`
  on a column with no non-missing value, the `IndexError` from
  `geom_type.iloc[0]` on an empty frame) are modelled with `Except`.
* Python floats are modelled as `Rat`; the 6-decimal rendering of a
  geometry aggregate is kept symbolic via the `GVal.num6` constructor.
* Python dicts are modelled as ordered association lists; assignment to a
  dict key is `dictSet` (replace in place, else append).
-/

set_option maxRecDepth 4096

deriving instance DecidableEq for Except

/-- A parsed JSON value, as produced by Python's `json.load`. -/
inductive Json where
  | null
  | bool (b : Bool)
  | num (q : Rat)
  | str (s : String)
  | arr (elems : List Json)
  | obj (fields : List (String × Json))

/-- `data.get(key)` on a parsed JSON value: field lookup on an object,
`none` on everything else.  (Python dict lookup; `json.load` objects have
unique keys, so first-match lookup is faithful.) -/
def Json.get : Json → String → Option Json
  | .obj fs, k => fs.lookup k
  | _, _ => none

/-- `isinstance(data, dict)`. -/
def Json.isObj : Json → Bool
  | .obj _ => true
  | _ => false

/-- Python's `value == s` for a possibly-absent JSON value against a
string literal. -/
def Json.isStr : Option Json → String → Bool
  | some (Json.str t), s => t = s
  | _, _ => false

/-- `str.lower()` / `str.split(sep)` / `str.strip()` / `int(str)` are
re-implemented on character lists so that the kernel can evaluate them
on concrete inputs (the byte-position-based `String` library functions
do not reduce there); each matches the Python behaviour the source
relies on. -/
def strToLower (s : String) : String := String.mk (s.data.map Char.toLower)

/-- Split a character list at every occurrence of `sep`. -/
def splitChars (sep : Char) : List Char → List Char → List (List Char)
  | [], acc => [acc.reverse]
  | c :: rest, acc =>
    if c = sep then acc.reverse :: splitChars sep rest []
    else splitChars sep rest (c :: acc)

/-- Python's `s.split(sep)` for a one-character separator. -/
def strSplit (sep : Char) (s : String) : List String :=
  (splitChars sep s.data []).map String.mk

/-- Python's `s.strip()`. -/
def strTrim (s : String) : String :=
  String.mk (((s.data.dropWhile Char.isWhitespace).reverse.dropWhile Char.isWhitespace).reverse)

/-- Python's `s.isdigit()` (restricted to the ASCII digits that sheet
selectors use): non-empty and all digits. -/
def strIsDigits (s : String) : Bool := !s.data.isEmpty && s.data.all Char.isDigit

/-- Python's `int(s)` on an all-digit string. -/
def strToNat (s : String) : Nat := s.data.foldl (fun a c => a * 10 + (c.toNat - 48)) 0

/-- The part of a file that `detect_file_type` inspects: the path's suffix
and, for the `.json` peek, the result of `json.load` (`none` models any
exception while opening or parsing the file). -/
structure FileInput where
  suffix : String
  parsed : Option Json

/-- `detect_file_type` from `src/sumry/readers.py`: classify a file by its
lower-cased extension, peeking into `.json` files for a GeoJSON `type`
field. -/
def detect_file_type (f : FileInput) : Option String :=
  let suffix := strToLower f.suffix
  if suffix = ".csv" ∨ suffix = ".tsv" then some "CSV"
  else if suffix = ".xlsx" ∨ suffix = ".xls" ∨ suffix = ".xlsm" then some "Excel"
  else if suffix = ".geojson" ∨ suffix = ".json" then
    if suffix = ".json" then
      match f.parsed with
      | some data =>
        if Json.isObj data &&
            (Json.isStr (Json.get data "type") "Feature" ||
             Json.isStr (Json.get data "type") "FeatureCollection") then
          some "GeoJSON"
        else none
      | none => none
    else some "GeoJSON"
  else if suffix = ".shp" then some "Shapefile"
  else none

/-- The claim's description of the detector (C1), written from the spec's
rule: `.csv`/`.tsv` delimited text, `.xlsx`/`.xls`/`.xlsm` spreadsheet,
`.shp` shapefile, `.geojson` geo-vector unconditionally, `.json`
geo-vector exactly when the parse yields an object whose `type` field is
`"Feature"` or `"FeatureCollection"`, everything else none. -/
def claimed_detect (f : FileInput) : Option String :=
  let s := strToLower f.suffix
  if s = ".csv" ∨ s = ".tsv" then some "CSV"
  else if s = ".xlsx" ∨ s = ".xls" ∨ s = ".xlsm" then some "Excel"
  else if s = ".shp" then some "Shapefile"
  else if s = ".geojson" then some "GeoJSON"
  else if s = ".json" then
    match f.parsed with
    | some (Json.obj fs) =>
      if Json.isStr (fs.lookup "type") "Feature" ||
          Json.isStr (fs.lookup "type") "FeatureCollection" then
        some "GeoJSON"
      else none
    | _ => none
  else none

/-- A single cell of a tabular structure.  `na` is a missing value
(pandas `NaN`/`None`); numbers are modelled as rationals. -/
inductive Cell where
  | na
  | num (q : Rat)
  | str (s : String)
  | bool (b : Bool)
deriving DecidableEq

/-- A scalar appearing in `basic_info`. -/
inductive BVal where
  | s (v : String)
  | n (v : Nat)
deriving DecidableEq

/-- A scalar appearing in a per-column statistics dict: a float statistic,
Python `None`, an integer count, or a most-common data value. -/
inductive SVal where
  | num (q : Rat)
  | null
  | count (n : Nat)
  | cell (c : Cell)
deriving DecidableEq

/-- A scalar appearing in `geometry_info`.  `num6 q` denotes the rational
`q` rendered with 6 decimal places (the `f"{x:.6f}"` in the source); the
rendering itself is floating-point/display work that no claim inspects. -/
inductive GVal where
  | str (s : String)
  | num6 (q : Rat)
deriving DecidableEq

/-- One entry of the `columns` list: column name and the library-reported
dtype display string. -/
structure ColInfo where
  name : String
  type : String
deriving DecidableEq

/-- One column of a pandas DataFrame: its name, dtype display string,
whether `pd.api.types.is_numeric_dtype` holds, and its cells. -/
structure Series where
  name : String
  dtype : String
  isNumeric : Bool
  values : List Cell
deriving DecidableEq

/-- A pandas DataFrame as the readers consume it: the ordered columns, the
index length (`len(df)`), and the library-formatted memory-usage display
string. -/
structure DataFrame where
  cols : List Series
  nRows : Nat
  memUsage : String
deriving DecidableEq

/-- The Summary Record built by `read_csv`, `_read_single_excel_sheet`,
`read_geojson` and `read_shapefile`: a dict whose optional keys are
modelled as `Option` fields (absent key = `none`). -/
structure Summary where
  basic_info : List (String × BVal)
  columns : Option (List ColInfo) := none
  sample_values : Option (List (String × List Cell)) := none
  statistics : Option (List (String × List (String × SVal))) := none
  geometry_info : Option (List (String × GVal)) := none
  sample_data : Option (List (List (String × Cell))) := none
deriving DecidableEq

/-- The Summary Record returned by `read_excel`, which may carry a
`sheets` mapping of nested per-sheet Summary Records. -/
structure ExcelSummary where
  basic_info : List (String × BVal)
  columns : Option (List ColInfo) := none
  sample_values : Option (List (String × List Cell)) := none
  statistics : Option (List (String × List (String × SVal))) := none
  sample_data : Option (List (List (String × Cell))) := none
  sheets : Option (List (String × Summary)) := none
deriving DecidableEq

/-- `series.dropna()`. -/
def dropna (l : List Cell) : List Cell := l.filter (fun c => c ≠ Cell.na)

/-- `series.nunique()`: number of distinct non-missing values. -/
def nunique (l : List Cell) : Nat := (dropna l).dedup.length

/-- The numeric content of a cell, if any. -/
def cellNum : Cell → Option Rat
  | Cell.num q => some q
  | _ => none

/-- `series.min()` on a numeric column (pandas skips missing values;
an empty result is `NaN`, modelled as `none`). -/
def seriesMin (l : List Cell) : Option Rat := (l.filterMap cellNum).min?

/-- `series.max()` on a numeric column. -/
def seriesMax (l : List Cell) : Option Rat := (l.filterMap cellNum).max?

/-- `series.mean()` on a numeric column: mean of the non-missing values,
`NaN` (here `none`) when there are none. -/
def seriesMean (l : List Cell) : Option Rat :=
  let xs := l.filterMap cellNum
  if xs.isEmpty then none else some (xs.sum / xs.length)

/-- `float(x) if not pd.isna(x) else None` for an aggregate. -/
def optNum : Option Rat → SVal
  | some q => SVal.num q
  | none => SVal.null

/-- `series.value_counts().head(1).index[0]` when it exists: the most
frequent non-missing value (first-encountered among ties; the source's
tie order is the library's internal, unspecified one).  `none` exactly
when the column has no non-missing value, in which case the source's
`.index[0]` raises `IndexError`. -/
def most_common? (l : List Cell) : Option Cell :=
  let xs := dropna l
  xs.foldl
    (fun acc c =>
      match acc with
      | none => some c
      | some b => if xs.count b < xs.count c then some c else acc)
    none

/-- The per-column `statistics` dict of `read_csv` and
`_read_single_excel_sheet` (lines 62-73 / 170-181 of readers.py).  The
non-numeric branch evaluates
`value_counts().head(1).index[0] if not df[col].empty else None`, which
raises `IndexError` when the column is non-empty but every value is
missing. -/
def statsFor (c : Series) : Except String (List (String × SVal)) :=
  if c.isNumeric then
    Except.ok
      [("min", optNum (seriesMin c.values)),
       ("max", optNum (seriesMax c.values)),
       ("mean", optNum (seriesMean c.values)),
       ("unique", SVal.count (nunique c.values))]
  else
    if c.values.isEmpty then
      Except.ok [("unique", SVal.count (nunique c.values)), ("most_common", SVal.null)]
    else
      match most_common? c.values with
      | some v => Except.ok [("unique", SVal.count (nunique c.values)), ("most_common", SVal.cell v)]
      | none => Except.error "index 0 is out of bounds for axis 0 with size 0"

/-- The `sample_values` dict: per column, the first 5 non-missing values. -/
def sampleValuesMap (cols : List Series) : List (String × List Cell) :=
  cols.map (fun c => (c.name, (dropna c.values).take 5))

/-- The `statistics` dict over all columns; the first raising column
aborts the whole read, as in Python. -/
def statsMap : List Series → Except String (List (String × List (String × SVal)))
  | [] => Except.ok []
  | c :: rest =>
    match statsFor c with
    | Except.error e => Except.error e
    | Except.ok r =>
      match statsMap rest with
      | Except.error e => Except.error e
      | Except.ok rs => Except.ok ((c.name, r) :: rs)

/-- Row `i` of the frame as a `to_dict('records')` mapping (column order). -/
def dfRow (df : DataFrame) (i : Nat) : List (String × Cell) :=
  df.cols.map (fun c => (c.name, c.values.getD i Cell.na))

/-- `df.head(n).to_dict('records')`: the first `min n (len df)` rows. -/
def dfRecords (df : DataFrame) (n : Nat) : List (List (String × Cell)) :=
  (List.range (min n df.nRows)).map (dfRow df)

/-- Lines 76-78 / 184-186: attach `sample_data` when a positive sample
count was requested. -/
def addSampleData (df : DataFrame) (sc : Option Int) (s : Summary) : Summary :=
  match sc with
  | some n => if 0 < n then { s with sample_data := some (dfRecords df n.toNat) } else s
  | none => s

/-- The non-verbose part of `read_csv`'s summary (lines 38-53). -/
def csvBase (fileName : String) (df : DataFrame) : Summary :=
  { basic_info :=
      [("File", BVal.s fileName), ("Rows", BVal.n df.nRows),
       ("Columns", BVal.n df.cols.length), ("Memory Usage", BVal.s df.memUsage)],
    columns := some (df.cols.map (fun c => { name := c.name, type := c.dtype })) }

/-- `read_csv` from readers.py, acting on the DataFrame that
`pd.read_csv` produced. -/
def read_csv (fileName : String) (df : DataFrame) (verbose : Bool) (sampleCount : Option Int) :
    Except String Summary :=
  if verbose then
    match statsMap df.cols with
    | Except.error e => Except.error e
    | Except.ok st =>
      Except.ok (addSampleData df sampleCount
        { csvBase fileName df with
            sample_values := some (sampleValuesMap df.cols), statistics := some st })
  else
    Except.ok (addSampleData df sampleCount (csvBase fileName df))

/-- The non-verbose part of a single-sheet summary (lines 146-161). -/
def sheetBase (sheetName : String) (df : DataFrame) : Summary :=
  { basic_info :=
      [("Sheet", BVal.s sheetName), ("Rows", BVal.n df.nRows),
       ("Columns", BVal.n df.cols.length), ("Memory Usage", BVal.s df.memUsage)],
    columns := some (df.cols.map (fun c => { name := c.name, type := c.dtype })) }

/-- `_read_single_excel_sheet` from readers.py, acting on the DataFrame
that `pd.read_excel(file_path, sheet_name=...)` produced. -/
def _read_single_excel_sheet (sheetName : String) (df : DataFrame) (verbose : Bool)
    (sampleCount : Option Int) : Except String Summary :=
  if verbose then
    match statsMap df.cols with
    | Except.error e => Except.error e
    | Except.ok st =>
      Except.ok (addSampleData df sampleCount
        { sheetBase sheetName df with
            sample_values := some (sampleValuesMap df.cols), statistics := some st })
  else
    Except.ok (addSampleData df sampleCount (sheetBase sheetName df))

/-- `pd.ExcelFile(path)` as the reader consumes it: the file name and the
workbook's sheets in order (Excel sheet names are unique within a
workbook). -/
structure ExcelFile where
  fileName : String
  sheets : List (String × DataFrame)

/-- `xl_file.sheet_names`. -/
def ExcelFile.sheet_names (xl : ExcelFile) : List String := xl.sheets.map (fun p => p.1)

/-- `pd.read_excel(file_path, sheet_name=nm)`: fetch a sheet by name
(only ever called with a member of `sheet_names`). -/
def getSheet (xl : ExcelFile) (nm : String) : DataFrame :=
  (xl.sheets.lookup nm).getD { cols := [], nRows := 0, memUsage := "" }

/-- One iteration of the selector loop (readers.py lines 93-101): a
digit token is a 0-based index, kept only when in range; any other token
is kept only when it names an existing sheet.  Invalid tokens are
silently dropped. -/
def resolveToken (names : List String) (tok : String) : Option String :=
  if strIsDigits tok then names[strToNat tok]?
  else if names.contains tok then some tok else none

/-- Lines 87-105: the `sheets_to_process` list.  A missing or empty
selector (Python `if select:` is false) defaults to the first sheet,
when there is one. -/
def sheets_to_process (select : Option String) (names : List String) : List String :=
  match select with
  | some sel =>
    if sel = "" then
      match names with
      | [] => []
      | nm :: _ => [nm]
    else ((strSplit ',' sel).map strTrim).filterMap (resolveToken names)
  | none =>
    match names with
    | [] => []
    | nm :: _ => [nm]

/-- Python dict assignment `m[k] = v`: replace in place when the key
exists, else append. -/
def dictSet {α : Type} : List (String × α) → String → α → List (String × α)
  | [], k, v => [(k, v)]
  | p :: rest, k, v => if p.1 = k then (k, v) :: rest else p :: dictSet rest k v

/-- The combined `basic_info` of a multi-sheet summary (lines 122-128). -/
def multiBasic (xl : ExcelFile) (toProcess : List String) : List (String × BVal) :=
  [("File", BVal.s xl.fileName),
   ("Total Sheets", BVal.n xl.sheet_names.length),
   ("Selected Sheets", BVal.n toProcess.length),
   ("Sheet Names", BVal.s (String.intercalate ", " toProcess))]

/-- The multi-sheet loop (lines 117-119): summarize each selected sheet
into the `summaries` dict; an exception in any sheet aborts the whole
read, as in Python. -/
def sheetsLoop (xl : ExcelFile) (verbose : Bool) (sc : Option Int) :
    List String → List (String × Summary) → Except String (List (String × Summary))
  | [], acc => Except.ok acc
  | nm :: rest, acc =>
    match _read_single_excel_sheet nm (getSheet xl nm) verbose sc with
    | Except.error e => Except.error e
    | Except.ok s => sheetsLoop xl verbose sc rest (dictSet acc nm s)

/-- `read_excel` from readers.py. -/
def read_excel (xl : ExcelFile) (verbose : Bool) (select : Option String) (sc : Option Int) :
    Except String ExcelSummary :=
  match sheets_to_process select xl.sheet_names with
  | [] =>
    Except.ok
      { basic_info :=
          [("File", BVal.s xl.fileName),
           ("Error", BVal.s ("No valid sheets found. Available sheets: " ++
              String.intercalate ", " xl.sheet_names))] }
  | [nm] =>
    match _read_single_excel_sheet nm (getSheet xl nm) verbose sc with
    | Except.error e => Except.error e
    | Except.ok s =>
      Except.ok
        { basic_info :=
            dictSet (dictSet (dictSet s.basic_info "File" (BVal.s xl.fileName))
                "Total Sheets" (BVal.n xl.sheet_names.length))
              "All Sheet Names" (BVal.s (String.intercalate ", " xl.sheet_names)),
          columns := s.columns,
          sample_values := s.sample_values,
          statistics := s.statistics,
          sample_data := s.sample_data }
  | nm1 :: nm2 :: rest =>
    match sheetsLoop xl verbose sc (nm1 :: nm2 :: rest) [] with
    | Except.error e => Except.error e
    | Except.ok m =>
      Except.ok
        { basic_info := multiBasic xl (nm1 :: nm2 :: rest),
          sheets := some m }

/-- A geopandas GeoDataFrame as the geo readers consume it: the attribute
table columns in frame order (possibly including the column named
`geometry`), the per-row geometry type / area / length series that the
library computes, the row count `len(gdf)`, and the library-formatted
bounds and memory-usage display strings. -/
structure GeoDataFrame where
  crs : Option String
  cols : List Series
  geomTypes : List String
  areas : List Rat
  lens : List Rat
  nRows : Nat
  boundsFmt : String
  memUsage : String

/-- `'geometry' in gdf.columns`. -/
def geomPresent (g : GeoDataFrame) : Bool := g.cols.any (fun c => c.name = "geometry")

/-- The attribute columns, geometry excluded (`col != 'geometry'`). -/
def nonGeomCols (g : GeoDataFrame) : List Series :=
  g.cols.filter (fun c => c.name ≠ "geometry")

/-- Distinct values in first-appearance order. -/
def firstDedup (l : List String) : List String :=
  l.foldl (fun acc t => if acc.contains t then acc else acc ++ [t]) []

/-- `gdf.geometry.geom_type.value_counts()`: geometry-type names with
counts, most frequent first (stable on ties). -/
def valueCountsDesc (l : List String) : List (String × Nat) :=
  List.insertionSort (fun a b => b.2 ≤ a.2) ((firstDedup l).map (fun t => (t, l.count t)))

/-- The `"Geometry Types"` display string of lines 228 / 307. -/
def histStr (l : List String) : String :=
  String.intercalate ", " ((valueCountsDesc l).map (fun p => s!"{p.1}: {p.2}"))

/-- Lines 217-232 / 296-311: the `geometry_info` dict.  The guarded
accesses `gdf.geometry.geom_type.iloc[0]` raise `IndexError` on a frame
with zero features; area is summed only when the first feature is
polygonal, length only when it is linear. -/
def geometryInfo (g : GeoDataFrame) : Except String (List (String × GVal)) :=
  match g.geomTypes with
  | [] => Except.error "single positional indexer is out-of-bounds"
  | t0 :: _ =>
    Except.ok
      [("Geometry Types", GVal.str (histStr g.geomTypes)),
       ("Bounds (minx, miny, maxx, maxy)", GVal.str g.boundsFmt),
       ("Total Area",
        if t0 = "Polygon" ∨ t0 = "MultiPolygon" then GVal.num6 g.areas.sum
        else GVal.str "N/A"),
       ("Total Length",
        if t0 = "LineString" ∨ t0 = "MultiLineString" then GVal.num6 g.lens.sum
        else GVal.str "N/A")]

/-- The non-verbose, pre-geometry part of the geo summaries
(lines 198-215 / 277-294). -/
def geoBase (fileName : String) (g : GeoDataFrame) : Summary :=
  { basic_info :=
      [("File", BVal.s fileName), ("Features", BVal.n g.nRows),
       ("CRS", BVal.s ((g.crs).getD "None")),
       ("Memory Usage", BVal.s g.memUsage)],
    columns := some ((nonGeomCols g).map (fun c => { name := c.name, type := c.dtype })),
    geometry_info := some [] }

/-- The geo readers' per-column statistics (lines 242-252 / 321-331):
unlike the tabular readers, the non-numeric branch records only the
distinct-value count — no `most_common` — and therefore never raises. -/
def geoStatsFor (c : Series) : List (String × SVal) :=
  if c.isNumeric then
    [("min", optNum (seriesMin c.values)),
     ("max", optNum (seriesMax c.values)),
     ("mean", optNum (seriesMean c.values)),
     ("unique", SVal.count (nunique c.values))]
  else
    [("unique", SVal.count (nunique c.values))]

/-- The geo `statistics` dict over the non-geometry columns. -/
def geoStatsMap (cols : List Series) : List (String × List (String × SVal)) :=
  cols.map (fun c => (c.name, geoStatsFor c))

/-- Lines 254-265 / 332-343: the first `min n (len gdf)` rows as
mappings, the geometry column excluded. -/
def geoRecords (g : GeoDataFrame) (n : Nat) : List (List (String × Cell)) :=
  (List.range (min n g.nRows)).map
    (fun i => (nonGeomCols g).map (fun c => (c.name, c.values.getD i Cell.na)))

/-- Attach geo `sample_data` when a positive sample count was requested. -/
def addGeoSample (g : GeoDataFrame) (sc : Option Int) (s : Summary) : Summary :=
  match sc with
  | some n => if 0 < n then { s with sample_data := some (geoRecords g n.toNat) } else s
  | none => s

/-- The shared body of `read_geojson` and `read_shapefile` (the two
source functions are line-for-line identical). -/
def readGeoCore (fileName : String) (g : GeoDataFrame) (verbose : Bool) (sc : Option Int) :
    Except String Summary :=
  match (if geomPresent g then Except.map some (geometryInfo g) else Except.ok none) with
  | Except.error e => Except.error e
  | Except.ok gi? =>
    let s1 :=
      match gi? with
      | some gi => { geoBase fileName g with geometry_info := some gi }
      | none => geoBase fileName g
    let s2 :=
      if verbose then
        { s1 with
            sample_values := some (sampleValuesMap (nonGeomCols g)),
            statistics := some (geoStatsMap (nonGeomCols g)) }
      else s1
    Except.ok (addGeoSample g sc s2)

/-- `read_geojson` from readers.py (lines 191-267). -/
def read_geojson (fileName : String) (g : GeoDataFrame) (verbose : Bool) (sc : Option Int) :
    Except String Summary :=
  readGeoCore fileName g verbose sc

/-- `read_shapefile` from readers.py (lines 270-345); its body is
identical to `read_geojson`'s. -/
def read_shapefile (fileName : String) (g : GeoDataFrame) (verbose : Bool) (sc : Option Int) :
    Except String Summary :=
  readGeoCore fileName g verbose sc

/-- `sample_count = 5 if count is not None and count <= 0 else count`
from cli.py lines 94-96. -/
def normalizeCount (count : Option Int) : Option Int :=
  match count with
  | some n => if n ≤ 0 then some 5 else some n
  | none => none

/-- Erase exactly the two verbose-only fields of a flat Summary Record. -/
def stripVerbose (s : Summary) : Summary :=
  { s with sample_values := none, statistics := none }

/-- Erase the verbose-only fields of every nested sheet record. -/
def stripSheets (m : List (String × Summary)) : List (String × Summary) :=
  m.map (fun p => (p.1, stripVerbose p.2))

/-- Erase the verbose-only fields of an excel Summary Record, nested
sheet records included. -/
def stripVerboseX (es : ExcelSummary) : ExcelSummary :=
  { es with sample_values := none, statistics := none, sheets := es.sheets.map stripSheets }

/-- Modelled from the library call `pd.read_csv(file_path)` that
`read_csv` performs, with the library's default comma separator: the
first line's comma-separated entries are the columns, each further
non-empty line a data row.  Dtype inference is not modelled (every
column is reported as `object`); only the field/row structure matters to
the claim that evaluates this model. -/
def pdReadCsv (content : String) : DataFrame :=
  match strSplit '\n' content with
  | [] => { cols := [], nRows := 0, memUsage := "" }
  | header :: rest =>
    let names := strSplit ',' header
    let rows := (rest.filter (fun ln => ln ≠ "")).map (fun ln => strSplit ',' ln)
    { cols := names.enum.map
        (fun p =>
          { name := p.2, dtype := "object", isNumeric := false,
            values := rows.map (fun r => Cell.str (r.getD p.1 "")) }),
      nRows := rows.length,
      memUsage := "" }

/-- A two-field, one-data-row tab-separated file. -/
def tsvSample : String := "a\tb\n1\t2"

/-- A geo frame whose first (and only) feature is a Point, with one
non-numeric attribute column. -/
def gPoint : GeoDataFrame :=
  { crs := some "EPSG:4326",
    cols := [{ name := "name", dtype := "object", isNumeric := false, values := [Cell.str "a"] },
             { name := "geometry", dtype := "geometry", isNumeric := false, values := [] }],
    geomTypes := ["Point"],
    areas := [0],
    lens := [0],
    nRows := 1,
    boundsFmt := "[0.000000, 0.000000, 0.000000, 0.000000]",
    memUsage := "0.30 KB" }

/-- A geo frame with a geometry column and zero features. -/
def gEmpty : GeoDataFrame :=
  { crs := none,
    cols := [{ name := "geometry", dtype := "geometry", isNumeric := false, values := [] }],
    geomTypes := [],
    areas := [],
    lens := [],
    nRows := 0,
    boundsFmt := "[nan, nan, nan, nan]",
    memUsage := "0.13 KB" }

/-- A frame with one empty non-numeric column, as `pd.read_csv` yields
for a headers-only CSV (`"a\n"` gives an empty `object` column). -/
def dfEmptyCol : DataFrame :=
  { cols := [{ name := "a", dtype := "object", isNumeric := false, values := [] }],
    nRows := 0, memUsage := "0.13 KB" }

/-- A one-row, one-column frame. -/
def dfOneRow : DataFrame :=
  { cols := [{ name := "a", dtype := "int64", isNumeric := true, values := [Cell.num 1] }],
    nRows := 1, memUsage := "0.14 KB" }

/-- A frame with one non-empty, non-numeric column whose only value is
missing. -/
def dfAllMissing : DataFrame :=
  { cols := [{ name := "a", dtype := "object", isNumeric := false, values := [Cell.na] }],
    nRows := 1, memUsage := "0.14 KB" }

/-- A workbook with a single sheet named `S1`. -/
def xlOne : ExcelFile :=
  { fileName := "book.xlsx",
    sheets := [("S1", dfOneRow)] }

/-- A workbook with two sheets. -/
def xlTwo : ExcelFile :=
  { fileName := "book2.xlsx",
    sheets := [("S1", dfOneRow), ("S2", dfEmptyCol)] }

/-- A geo frame carrying no geometry column (one non-numeric attribute
column, one row). -/
def gNoGeom : GeoDataFrame :=
  { crs := none,
    cols := [{ name := "name", dtype := "object", isNumeric := false, values := [Cell.str "a"] }],
    geomTypes := [],
    areas := [],
    lens := [],
    nRows := 1,
    boundsFmt := "[nan, nan, nan, nan]",
    memUsage := "0.14 KB" }

/-- A one-value non-numeric column. -/
def colStrX : Series :=
  { name := "a", dtype := "object", isNumeric := false, values := [Cell.str "x"] }

/-- An empty non-numeric column. -/
def colEmptyObj : Series :=
  { name := "a", dtype := "object", isNumeric := false, values := [] }

/-- An empty numeric column. -/
def colEmptyNum : Series :=
  { name := "b", dtype := "float64", isNumeric := true, values := [] }

/-- A non-empty non-numeric column whose only value is missing. -/
def colAllNa : Series :=
  { name := "a", dtype := "object", isNumeric := false, values := [Cell.na] }

/-- A one-row frame with a single non-numeric column. -/
def dfStrRow : DataFrame :=
  { cols := [colStrX], nRows := 1, memUsage := "0.14 KB" }

/-- The verbose statistics of `dfStrRow`'s single column. -/
def statsStrX : List (String × List (String × SVal)) :=
  [("a", [("unique", SVal.count 1), ("most_common", SVal.cell (Cell.str "x"))])]

/-- The verbose CSV summary of `dfStrRow`. -/
def csvStrV : Summary :=
  { csvBase "s.csv" dfStrRow with
      sample_values := some (sampleValuesMap dfStrRow.cols),
      statistics := some statsStrX }

/-- The verbose single-sheet summary of `dfStrRow`. -/
def sheetStrV : Summary :=
  { sheetBase "S" dfStrRow with
      sample_values := some (sampleValuesMap dfStrRow.cols),
      statistics := some statsStrX }

/-- The verbose geo summary of `gNoGeom`. -/
def geoStrV : Summary :=
  { geoBase "t.geojson" gNoGeom with
      sample_values := some (sampleValuesMap (nonGeomCols gNoGeom)),
      statistics := some (geoStatsMap (nonGeomCols gNoGeom)) }

/-- A workbook with a single sheet holding `dfStrRow`. -/
def xlStr : ExcelFile := { fileName := "s.xlsx", sheets := [("S", dfStrRow)] }

/-- The verbose excel summary of `xlStr` with its default (single) sheet. -/
def xlStrV : ExcelSummary :=
  { basic_info := dictSet (dictSet (dictSet sheetStrV.basic_info "File" (BVal.s "s.xlsx"))
        "Total Sheets" (BVal.n 1)) "All Sheet Names" (BVal.s "S"),
    columns := sheetStrV.columns,
    sample_values := sheetStrV.sample_values,
    statistics := sheetStrV.statistics,
    sample_data := sheetStrV.sample_data }

/-- C1: the Type Detector agrees everywhere with the claimed rule —
`.csv`/`.tsv` yield the delimited-text tag, `.xlsx`/`.xls`/`.xlsm` the
spreadsheet tag, `.shp` the shapefile tag, `.geojson` the geo-vector tag
unconditionally, `.json` the geo-vector tag exactly when the file parses
as JSON whose top-level value is an object with a `type` field equal to
"Feature" or "FeatureCollection" (parse failure = no match); every other
extension and every non-matching `.json` yields none. -/
theorem detect_file_type_matches_claim (f : FileInput) :
    detect_file_type f = claimed_detect f := by
  obtain ⟨suf, par⟩ := f
  unfold detect_file_type claimed_detect
  dsimp only
  by_cases h1 : strToLower suf = ".csv" ∨ strToLower suf = ".tsv"
  · simp [h1]
  by_cases h2 : strToLower suf = ".xlsx" ∨ strToLower suf = ".xls" ∨ strToLower suf = ".xlsm"
  · simp [h1, h2]
  by_cases h4 : strToLower suf = ".json"
  · simp only [h4, if_neg h1, if_neg h2]
    norm_num
    cases par with
    | none => simp
    | some j => cases j <;> simp [Json.get, Json.isObj, Json.isStr]
  by_cases h3 : strToLower suf = ".geojson"
  · simp [h1, h2, h3, h4]
  by_cases h5 : strToLower suf = ".shp"
  · simp [h1, h2, h3, h4, h5]
  · simp [h1, h2, h3, h4, h5]

/-- C2 (failing-input evaluation): the reader parses a `.tsv` file with
the library's default comma separator, so the two-field, one-data-row
tab-separated sample yields a frame with a single column; the Summary
Record then reports Rows = 1 (correct) but Columns = 1, not the 2
tab-separated source fields. -/
theorem read_csv_tsv_comma_separator_bug :
    (strSplit '\t' "a\tb").length = 2 ∧
    (pdReadCsv tsvSample).cols.length = 1 ∧
    read_csv "data.tsv" (pdReadCsv tsvSample) false none =
      Except.ok
        { basic_info :=
            [("File", BVal.s "data.tsv"), ("Rows", BVal.n 1),
             ("Columns", BVal.n 1), ("Memory Usage", BVal.s "")],
          columns := some [{ name := "a\tb", type := "object" }] } := by
  refine ⟨by decide, by decide, by decide⟩

/-- C3: for every geospatial input with a geometry column and at least
one feature, both geo readers succeed and `geometry_info` reports a
total area exactly when the first feature's geometry type is Polygon or
MultiPolygon (else "N/A") and a total length exactly when it is
LineString or MultiLineString (else "N/A"), whatever the remaining
features' types are. -/
theorem geo_area_length_follow_first_feature
    (fn : String) (g : GeoDataFrame) (v : Bool) (sc : Option Int)
    (t0 : String) (rest : List String)
    (hg : geomPresent g = true) (ht : g.geomTypes = t0 :: rest) :
    ∃ s, read_geojson fn g v sc = Except.ok s ∧
      read_shapefile fn g v sc = Except.ok s ∧
      s.geometry_info = some
        [("Geometry Types", GVal.str (histStr g.geomTypes)),
         ("Bounds (minx, miny, maxx, maxy)", GVal.str g.boundsFmt),
         ("Total Area",
          if t0 = "Polygon" ∨ t0 = "MultiPolygon" then GVal.num6 g.areas.sum
          else GVal.str "N/A"),
         ("Total Length",
          if t0 = "LineString" ∨ t0 = "MultiLineString" then GVal.num6 g.lens.sum
          else GVal.str "N/A")] := by
  unfold read_geojson read_shapefile readGeoCore
  rw [hg]
  unfold geometryInfo
  rw [ht]
  dsimp only [Except.map]
  refine ⟨_, rfl, rfl, ?_⟩
  cases v <;> cases sc <;> simp [addGeoSample] <;> split <;> simp

/-- Witness for C3 at a one-Point GeoJSON frame. -/
theorem geo_area_length_follow_first_feature_witness :
    ∃ s, read_geojson "pts.geojson" gPoint false none = Except.ok s ∧
      read_shapefile "pts.geojson" gPoint false none = Except.ok s ∧
      s.geometry_info = some
        [("Geometry Types", GVal.str (histStr gPoint.geomTypes)),
         ("Bounds (minx, miny, maxx, maxy)", GVal.str gPoint.boundsFmt),
         ("Total Area",
          if ("Point" : String) = "Polygon" ∨ ("Point" : String) = "MultiPolygon" then
            GVal.num6 gPoint.areas.sum
          else GVal.str "N/A"),
         ("Total Length",
          if ("Point" : String) = "LineString" ∨ ("Point" : String) = "MultiLineString" then
            GVal.num6 gPoint.lens.sum
          else GVal.str "N/A")] :=
  geo_area_length_follow_first_feature "pts.geojson" gPoint false none "Point" [] (by decide) (by rfl)

/-- Attaching sample data leaves `statistics` unchanged. -/
theorem addSampleData_statistics (df : DataFrame) (sc : Option Int) (s : Summary) :
    (addSampleData df sc s).statistics = s.statistics := by
  unfold addSampleData
  cases sc with
  | none => rfl
  | some n => by_cases h : (0 : Int) < n <;> simp [h]

/-- Attaching sample data leaves `basic_info` unchanged. -/
theorem addSampleData_basic_info (df : DataFrame) (sc : Option Int) (s : Summary) :
    (addSampleData df sc s).basic_info = s.basic_info := by
  unfold addSampleData
  cases sc with
  | none => rfl
  | some n => by_cases h : (0 : Int) < n <;> simp [h]

/-- Attaching sample data leaves `columns` unchanged. -/
theorem addSampleData_columns (df : DataFrame) (sc : Option Int) (s : Summary) :
    (addSampleData df sc s).columns = s.columns := by
  unfold addSampleData
  cases sc with
  | none => rfl
  | some n => by_cases h : (0 : Int) < n <;> simp [h]

/-- Attaching geo sample data leaves `statistics` unchanged. -/
theorem addGeoSample_statistics (g : GeoDataFrame) (sc : Option Int) (s : Summary) :
    (addGeoSample g sc s).statistics = s.statistics := by
  unfold addGeoSample
  cases sc with
  | none => rfl
  | some n => by_cases h : (0 : Int) < n <;> simp [h]

/-- C10: on a geospatial input that has a geometry column but zero
features, both geo readers raise (the geometry summary indexes the first
feature's geometry type) instead of returning a Summary Record. -/
theorem geo_empty_features_raise
    (fn : String) (g : GeoDataFrame) (v : Bool) (sc : Option Int)
    (hg : geomPresent g = true) (_h0 : g.nRows = 0) (ht : g.geomTypes = []) :
    read_geojson fn g v sc = Except.error "single positional indexer is out-of-bounds" ∧
    read_shapefile fn g v sc = Except.error "single positional indexer is out-of-bounds" := by
  unfold read_geojson read_shapefile readGeoCore
  rw [hg]
  unfold geometryInfo
  rw [ht]
  exact ⟨rfl, rfl⟩

/-- Witness for C10 at a concrete empty frame. -/
theorem geo_empty_features_raise_witness :
    read_geojson "empty.geojson" gEmpty true (some 5) =
      Except.error "single positional indexer is out-of-bounds" ∧
    read_shapefile "empty.geojson" gEmpty true (some 5) =
      Except.error "single positional indexer is out-of-bounds" :=
  geo_empty_features_raise "empty.geojson" gEmpty true (some 5) (by decide) (by rfl) (by rfl)

/-- Counterexample to C4: on a concrete GeoJSON input with one
non-numeric column, the verbose statistics entry is only
`{unique: 1}` — no `most_common` key is present. -/
theorem geo_nonnumeric_stats_lack_most_common :
    ((read_geojson "pts.geojson" gPoint true none).toOption.bind
        (fun s => s.statistics)) = some [("name", [("unique", SVal.count 1)])] ∧
    (((read_geojson "pts.geojson" gPoint true none).toOption.bind
        (fun s => s.statistics)).getD []).all
      (fun p => (p.2.lookup "most_common").isNone) = true := by
  constructor
  · decide
  · decide

/-- C4 (amended): non-numeric columns of delimited-text/spreadsheet
inputs get statistics entries with exactly the keys `unique` and
`most_common`, but the GeoJSON/Shapefile readers record only `unique`
for non-numeric columns; the readers install exactly these per-column
dicts in the `statistics` field. -/
theorem nonnumeric_stats_most_common_amended :
    (∀ c : Series, c.isNumeric = false → ∀ r, statsFor c = Except.ok r →
      r.map Prod.fst = ["unique", "most_common"]) ∧
    (∀ c : Series, c.isNumeric = false →
      (geoStatsFor c).map Prod.fst = ["unique"]) ∧
    (∀ fn g sc s, read_geojson fn g true sc = Except.ok s →
      s.statistics = some (geoStatsMap (nonGeomCols g))) ∧
    (∀ fn g sc s, read_shapefile fn g true sc = Except.ok s →
      s.statistics = some (geoStatsMap (nonGeomCols g))) ∧
    (∀ fn df sc s, read_csv fn df true sc = Except.ok s →
      statsMap df.cols = Except.ok ((s.statistics).getD [])) := by
  have hgeo : ∀ fn g sc s, readGeoCore fn g true sc = Except.ok s →
      s.statistics = some (geoStatsMap (nonGeomCols g)) := by
    intro fn g sc s h
    unfold readGeoCore at h
    rcases hm : (if geomPresent g then Except.map some (geometryInfo g) else Except.ok none) with e | gi?
    · rw [hm] at h; cases h
    · rw [hm] at h
      simp only [Except.ok.injEq] at h
      subst h
      rw [addGeoSample_statistics]
      cases gi? <;> rfl
  refine ⟨?_, ?_, hgeo, hgeo, ?_⟩
  · intro c hnum r hr
    unfold statsFor at hr
    rw [hnum] at hr
    simp only [Bool.false_eq_true, if_false] at hr
    by_cases he : c.values.isEmpty
    · simp only [he, if_true] at hr
      cases hr
      rfl
    · simp only [he, if_false] at hr
      rcases hmc : most_common? c.values with _ | v
      · rw [hmc] at hr; cases hr
      · rw [hmc] at hr; cases hr; rfl
  · intro c hnum
    unfold geoStatsFor
    rw [hnum]
    rfl
  · intro fn df sc s h
    unfold read_csv at h
    rcases hm : statsMap df.cols with e | st
    · rw [hm] at h; simp at h
    · rw [hm] at h
      rw [if_pos rfl] at h
      injection h with h2
      subst h2
      rw [addSampleData_statistics]
      rfl

/-- Witness for the amended C4 at concrete columns and frames. -/
theorem nonnumeric_stats_most_common_amended_witness :
    (([("unique", SVal.count 1), ("most_common", SVal.cell (Cell.str "x"))] :
        List (String × SVal)).map Prod.fst = ["unique", "most_common"]) ∧
    ((geoStatsFor colStrX).map Prod.fst = ["unique"]) ∧
    (({ geoBase "t.geojson" gNoGeom with
          sample_values := some (sampleValuesMap (nonGeomCols gNoGeom)),
          statistics := some (geoStatsMap (nonGeomCols gNoGeom)) } : Summary).statistics =
      some (geoStatsMap (nonGeomCols gNoGeom))) ∧
    (statsMap dfStrRow.cols =
      Except.ok ((({ csvBase "one.csv" dfStrRow with
          sample_values := some (sampleValuesMap dfStrRow.cols),
          statistics := some [("a",
            [("unique", SVal.count 1),
             ("most_common", SVal.cell (Cell.str "x"))])] } : Summary).statistics).getD [])) :=
  ⟨nonnumeric_stats_most_common_amended.1 colStrX rfl _ (by decide),
   nonnumeric_stats_most_common_amended.2.1 colStrX rfl,
   nonnumeric_stats_most_common_amended.2.2.1 "t.geojson" gNoGeom none _ (by decide),
   nonnumeric_stats_most_common_amended.2.2.2.2 "one.csv" dfStrRow none _ (by decide)⟩

/-- Counterexample to C5: on a headers-only CSV frame the verbose
statistics entry of the empty column is
`{unique: 0, most_common: None}` — the `most_common` key is present
(with value `None`), not absent. -/
theorem empty_column_stats_have_most_common_key :
    read_csv "empty.csv" dfEmptyCol true none =
      Except.ok { csvBase "empty.csv" dfEmptyCol with
        sample_values := some [("a", [])],
        statistics := some [("a", [("unique", SVal.count 0), ("most_common", SVal.null)])] } ∧
    (((read_csv "empty.csv" dfEmptyCol true none).toOption.bind
        (fun s => s.statistics)).getD []).all
      (fun p => (p.2.lookup "most_common").isSome) = true := by
  constructor <;> decide

/-- A raising column makes the whole statistics pass raise. -/
theorem statsMap_error_of_mem (cols : List Series) (c : Series) (hc : c ∈ cols)
    (e : String) (he : statsFor c = Except.error e) :
    ∃ e2, statsMap cols = Except.error e2 := by
  induction cols with
  | nil => cases hc
  | cons d rest ih =>
    unfold statsMap
    rcases hd : statsFor d with e3 | r
    · exact ⟨e3, rfl⟩
    · rcases List.mem_cons.mp hc with hceq | hcm
      · subst hceq; rw [hd] at he; cases he
      · obtain ⟨e2, h2⟩ := ih hcm
        rw [h2]
        exact ⟨e2, rfl⟩

/-- C5 (amended): an empty column yields `unique = 0`, with
`most_common` present but `None` in the non-numeric case; a non-empty
non-numeric column whose values are all missing makes the statistics
computation raise `IndexError` — and `read_csv` /
`_read_single_excel_sheet` then fail in verbose mode instead of
producing a Summary Record. -/
theorem empty_and_all_missing_column_stats_amended :
    (∀ c : Series, c.values = [] → c.isNumeric = false →
      statsFor c = Except.ok [("unique", SVal.count 0), ("most_common", SVal.null)]) ∧
    (∀ c : Series, c.values = [] → c.isNumeric = true →
      statsFor c = Except.ok
        [("min", SVal.null), ("max", SVal.null), ("mean", SVal.null),
         ("unique", SVal.count 0)]) ∧
    (∀ c : Series, c.isNumeric = false → c.values ≠ [] → dropna c.values = [] →
      statsFor c = Except.error "index 0 is out of bounds for axis 0 with size 0") ∧
    (∀ fn df sc c, c ∈ df.cols → c.isNumeric = false → c.values ≠ [] →
      dropna c.values = [] → ∃ e, read_csv fn df true sc = Except.error e) ∧
    (∀ nm df sc c, c ∈ df.cols → c.isNumeric = false → c.values ≠ [] →
      dropna c.values = [] →
      ∃ e, _read_single_excel_sheet nm df true sc = Except.error e) := by
  have h3 : ∀ c : Series, c.isNumeric = false → c.values ≠ [] → dropna c.values = [] →
      statsFor c = Except.error "index 0 is out of bounds for axis 0 with size 0" := by
    intro c hnum hne hdrop
    unfold statsFor
    rw [hnum]
    simp only [Bool.false_eq_true, if_false]
    rw [if_neg (by simpa [List.isEmpty_iff] using hne)]
    have hmc : most_common? c.values = none := by
      unfold most_common?
      rw [hdrop]
      rfl
    rw [hmc]
  refine ⟨?_, ?_, h3, ?_, ?_⟩
  · intro c hv hnum
    unfold statsFor
    rw [hnum, hv]
    rfl
  · intro c hv hnum
    unfold statsFor
    rw [hnum, hv]
    rfl
  · intro fn df sc c hmem hnum hne hdrop
    obtain ⟨e2, h2⟩ := statsMap_error_of_mem df.cols c hmem _ (h3 c hnum hne hdrop)
    refine ⟨e2, ?_⟩
    unfold read_csv
    rw [if_pos rfl, h2]
  · intro nm df sc c hmem hnum hne hdrop
    obtain ⟨e2, h2⟩ := statsMap_error_of_mem df.cols c hmem _ (h3 c hnum hne hdrop)
    refine ⟨e2, ?_⟩
    unfold _read_single_excel_sheet
    rw [if_pos rfl, h2]

/-- Witness for the amended C5 at concrete columns and frames. -/
theorem empty_and_all_missing_column_stats_amended_witness :
    (statsFor colEmptyObj =
      Except.ok [("unique", SVal.count 0), ("most_common", SVal.null)]) ∧
    (statsFor colEmptyNum =
      Except.ok [("min", SVal.null), ("max", SVal.null), ("mean", SVal.null),
        ("unique", SVal.count 0)]) ∧
    (statsFor colAllNa =
      Except.error "index 0 is out of bounds for axis 0 with size 0") ∧
    (∃ e, read_csv "m.csv" dfAllMissing true none = Except.error e) ∧
    (∃ e, _read_single_excel_sheet "S1" dfAllMissing true none = Except.error e) :=
  ⟨empty_and_all_missing_column_stats_amended.1 colEmptyObj rfl rfl,
   empty_and_all_missing_column_stats_amended.2.1 colEmptyNum rfl rfl,
   empty_and_all_missing_column_stats_amended.2.2.1 colAllNa rfl (by decide) (by decide),
   empty_and_all_missing_column_stats_amended.2.2.2.1 "m.csv" dfAllMissing none
     colAllNa (by decide) rfl (by decide) (by decide),
   empty_and_all_missing_column_stats_amended.2.2.2.2 "S1" dfAllMissing none
     colAllNa (by decide) rfl (by decide) (by decide)⟩

/-- Counterexample to C6: requesting 2 sample rows from a one-row CSV
yields a `sample_data` of length 1, not 2. -/
theorem sample_data_shorter_than_requested :
    read_csv "one.csv" dfOneRow false (some 2) =
      Except.ok { csvBase "one.csv" dfOneRow with
        sample_data := some [[("a", Cell.num 1)]] } ∧
    ¬ (((read_csv "one.csv" dfOneRow false (some 2)).toOption.bind
        (fun s => s.sample_data)).map List.length = some 2) := by
  constructor <;> decide

/-- Every successful CSV read is sample-data attachment to a record
without sample data. -/
theorem read_csv_ok_shape (fn : String) (df : DataFrame) (v : Bool) (sc : Option Int)
    (s : Summary) (h : read_csv fn df v sc = Except.ok s) :
    ∃ s0 : Summary, s = addSampleData df sc s0 ∧ s0.sample_data = none := by
  unfold read_csv at h
  cases v with
  | false =>
    simp only [Bool.false_eq_true, if_false] at h
    injection h with h2
    exact ⟨_, h2.symm, rfl⟩
  | true =>
    rw [if_pos rfl] at h
    rcases hm : statsMap df.cols with e | st <;> rw [hm] at h
    · cases h
    · injection h with h2
      exact ⟨_, h2.symm, rfl⟩

/-- Every successful sheet read is sample-data attachment to a record
without sample data. -/
theorem read_sheet_ok_shape (nm : String) (df : DataFrame) (v : Bool) (sc : Option Int)
    (s : Summary) (h : _read_single_excel_sheet nm df v sc = Except.ok s) :
    ∃ s0 : Summary, s = addSampleData df sc s0 ∧ s0.sample_data = none := by
  unfold _read_single_excel_sheet at h
  cases v with
  | false =>
    simp only [Bool.false_eq_true, if_false] at h
    injection h with h2
    exact ⟨_, h2.symm, rfl⟩
  | true =>
    rw [if_pos rfl] at h
    rcases hm : statsMap df.cols with e | st <;> rw [hm] at h
    · cases h
    · injection h with h2
      exact ⟨_, h2.symm, rfl⟩

/-- Every successful geo read is sample-data attachment to a record
without sample data. -/
theorem readGeoCore_ok_shape (fn : String) (g : GeoDataFrame) (v : Bool) (sc : Option Int)
    (s : Summary) (h : readGeoCore fn g v sc = Except.ok s) :
    ∃ s0 : Summary, s = addGeoSample g sc s0 ∧ s0.sample_data = none := by
  unfold readGeoCore at h
  rcases hm : (if geomPresent g then Except.map some (geometryInfo g) else Except.ok none)
    with e | gi? <;> rw [hm] at h
  · cases h
  · injection h with h2
    refine ⟨_, h2.symm, ?_⟩
    cases gi? <;> cases v <;> rfl

/-- A positive requested count attaches the head rows. -/
theorem addSampleData_pos (df : DataFrame) (n : Int) (hn : 0 < n) (s : Summary) :
    (addSampleData df (some n) s).sample_data = some (dfRecords df n.toNat) := by
  unfold addSampleData
  dsimp only
  rw [if_pos hn]

/-- A positive requested count attaches the head geo rows. -/
theorem addGeoSample_pos (g : GeoDataFrame) (n : Int) (hn : 0 < n) (s : Summary) :
    (addGeoSample g (some n) s).sample_data = some (geoRecords g n.toNat) := by
  unfold addGeoSample
  dsimp only
  rw [if_pos hn]

/-- The attached rows number `min n rows`. -/
theorem dfRecords_length (df : DataFrame) (n : Nat) :
    (dfRecords df n).length = min n df.nRows := by
  simp [dfRecords]

/-- The attached geo rows number `min n rows`. -/
theorem geoRecords_length (g : GeoDataFrame) (n : Nat) :
    (geoRecords g n).length = min n g.nRows := by
  simp [geoRecords]

/-- C6 (amended): a requested positive sample count N produces a
`sample_data` of length exactly `min N rows` in every reader, and
`sample_data` is absent whenever no count is requested (the CLI passes a
positive N through unchanged). -/
theorem sample_data_length_min_amended :
    (∀ n : Int, 0 < n → normalizeCount (some n) = some n) ∧
    (∀ fn df v (n : Int) s, 0 < n → read_csv fn df v (some n) = Except.ok s →
      s.sample_data = some (dfRecords df n.toNat) ∧
      (dfRecords df n.toNat).length = min n.toNat df.nRows) ∧
    (∀ nm df v (n : Int) s, 0 < n → _read_single_excel_sheet nm df v (some n) = Except.ok s →
      s.sample_data = some (dfRecords df n.toNat) ∧
      (dfRecords df n.toNat).length = min n.toNat df.nRows) ∧
    (∀ fn g v (n : Int) s, 0 < n → read_geojson fn g v (some n) = Except.ok s →
      s.sample_data = some (geoRecords g n.toNat) ∧
      (geoRecords g n.toNat).length = min n.toNat g.nRows) ∧
    (∀ fn g v (n : Int) s, 0 < n → read_shapefile fn g v (some n) = Except.ok s →
      s.sample_data = some (geoRecords g n.toNat) ∧
      (geoRecords g n.toNat).length = min n.toNat g.nRows) ∧
    (∀ fn df v s, read_csv fn df v none = Except.ok s → s.sample_data = none) ∧
    (∀ nm df v s, _read_single_excel_sheet nm df v none = Except.ok s →
      s.sample_data = none) ∧
    (∀ fn g v s, read_geojson fn g v none = Except.ok s → s.sample_data = none) ∧
    (∀ fn g v s, read_shapefile fn g v none = Except.ok s → s.sample_data = none) := by
  refine ⟨?_, ?_, ?_, ?_, ?_, ?_, ?_, ?_, ?_⟩
  · intro n hn
    unfold normalizeCount
    dsimp only
    rw [if_neg (by omega)]
  · intro fn df v n s hn h
    obtain ⟨s0, hs, _⟩ := read_csv_ok_shape fn df v (some n) s h
    exact ⟨hs ▸ addSampleData_pos df n hn s0, dfRecords_length df n.toNat⟩
  · intro nm df v n s hn h
    obtain ⟨s0, hs, _⟩ := read_sheet_ok_shape nm df v (some n) s h
    exact ⟨hs ▸ addSampleData_pos df n hn s0, dfRecords_length df n.toNat⟩
  · intro fn g v n s hn h
    obtain ⟨s0, hs, _⟩ := readGeoCore_ok_shape fn g v (some n) s h
    exact ⟨hs ▸ addGeoSample_pos g n hn s0, geoRecords_length g n.toNat⟩
  · intro fn g v n s hn h
    obtain ⟨s0, hs, _⟩ := readGeoCore_ok_shape fn g v (some n) s h
    exact ⟨hs ▸ addGeoSample_pos g n hn s0, geoRecords_length g n.toNat⟩
  · intro fn df v s h
    obtain ⟨s0, hs, h0⟩ := read_csv_ok_shape fn df v none s h
    rw [hs]
    exact h0
  · intro nm df v s h
    obtain ⟨s0, hs, h0⟩ := read_sheet_ok_shape nm df v none s h
    rw [hs]
    exact h0
  · intro fn g v s h
    obtain ⟨s0, hs, h0⟩ := readGeoCore_ok_shape fn g v none s h
    rw [hs]
    exact h0
  · intro fn g v s h
    obtain ⟨s0, hs, h0⟩ := readGeoCore_ok_shape fn g v none s h
    rw [hs]
    exact h0

/-- Witness for the amended C6 at concrete frames. -/
theorem sample_data_length_min_amended_witness :
    (normalizeCount (some 1) = some 1) ∧
    (({ csvBase "one.csv" dfOneRow with
        sample_data := some (dfRecords dfOneRow (1 : Int).toNat) } : Summary).sample_data =
        some (dfRecords dfOneRow (1 : Int).toNat) ∧
      (dfRecords dfOneRow (1 : Int).toNat).length = min (1 : Int).toNat dfOneRow.nRows) ∧
    (({ sheetBase "S1" dfOneRow with
        sample_data := some (dfRecords dfOneRow (1 : Int).toNat) } : Summary).sample_data =
        some (dfRecords dfOneRow (1 : Int).toNat) ∧
      (dfRecords dfOneRow (1 : Int).toNat).length = min (1 : Int).toNat dfOneRow.nRows) ∧
    (({ geoBase "t.geojson" gNoGeom with
        sample_data := some (geoRecords gNoGeom (1 : Int).toNat) } : Summary).sample_data =
        some (geoRecords gNoGeom (1 : Int).toNat) ∧
      (geoRecords gNoGeom (1 : Int).toNat).length = min (1 : Int).toNat gNoGeom.nRows) ∧
    ((csvBase "one.csv" dfOneRow).sample_data = none) ∧
    ((sheetBase "S1" dfOneRow).sample_data = none) ∧
    ((geoBase "t.geojson" gNoGeom).sample_data = none) :=
  ⟨sample_data_length_min_amended.1 1 (by decide),
   sample_data_length_min_amended.2.1 "one.csv" dfOneRow false 1 _ (by decide) (by decide),
   sample_data_length_min_amended.2.2.1 "S1" dfOneRow false 1 _ (by decide) (by decide),
   sample_data_length_min_amended.2.2.2.1 "t.geojson" gNoGeom false 1 _ (by decide) (by decide),
   sample_data_length_min_amended.2.2.2.2.2.1 "one.csv" dfOneRow false _ (by decide),
   sample_data_length_min_amended.2.2.2.2.2.2.1 "S1" dfOneRow false _ (by decide),
   sample_data_length_min_amended.2.2.2.2.2.2.2.1 "t.geojson" gNoGeom false _ (by decide)⟩

/-- Counterexample to C7: on a one-sheet workbook with selector "7",
zero sheets resolve and `read_excel` returns normally, but `basic_info`
holds the keys `File` and `Error` — not only an error string. -/
theorem zero_sheet_error_record_keeps_file_key :
    sheets_to_process (some "7") xlOne.sheet_names = [] ∧
    read_excel xlOne false (some "7") none =
      Except.ok { basic_info :=
        [("File", BVal.s "book.xlsx"),
         ("Error", BVal.s "No valid sheets found. Available sheets: S1")] } ∧
    ¬ (((read_excel xlOne false (some "7") none).toOption.map
        (fun es => es.basic_info.map Prod.fst)) = some ["Error"]) := by
  refine ⟨by decide, by decide, by decide⟩

/-- C7 (amended): out-of-range index tokens and nonexistent sheet-name
tokens resolve to nothing and are dropped silently from the selector;
when zero sheets resolve, `read_excel` returns normally with a record
whose `basic_info` holds exactly the file name and an error string
naming the available sheets, and nothing else. -/
theorem invalid_sheet_tokens_dropped_amended :
    (∀ (names : List String) (tok : String), strIsDigits tok = true →
      names.length ≤ strToNat tok → resolveToken names tok = none) ∧
    (∀ (names : List String) (tok : String), strIsDigits tok = false →
      names.contains tok = false → resolveToken names tok = none) ∧
    (∀ (sel : String) (names : List String), sel ≠ "" →
      sheets_to_process (some sel) names =
        ((strSplit ',' sel).map strTrim).filterMap (resolveToken names)) ∧
    (∀ xl v sel sc, sheets_to_process sel xl.sheet_names = [] →
      read_excel xl v sel sc = Except.ok
        { basic_info :=
            [("File", BVal.s xl.fileName),
             ("Error", BVal.s ("No valid sheets found. Available sheets: " ++
                String.intercalate ", " xl.sheet_names))] }) := by
  refine ⟨?_, ?_, ?_, ?_⟩
  · intro names tok hd hlen
    unfold resolveToken
    rw [if_pos hd]
    exact List.getElem?_eq_none hlen
  · intro names tok hd hc
    unfold resolveToken
    rw [if_neg (by simp [hd]), if_neg (by simpa using hc)]
  · intro sel names hne
    unfold sheets_to_process
    dsimp only
    rw [if_neg hne]
  · intro xl v sel sc h
    unfold read_excel
    rw [h]

/-- Witness for the amended C7 at a concrete workbook and selector. -/
theorem invalid_sheet_tokens_dropped_amended_witness :
    (resolveToken xlOne.sheet_names "7" = none) ∧
    (resolveToken xlOne.sheet_names "S9" = none) ∧
    (sheets_to_process (some "7,S9") xlOne.sheet_names =
      ((strSplit ',' "7,S9").map strTrim).filterMap (resolveToken xlOne.sheet_names)) ∧
    (read_excel xlOne true (some "7,S9") (some 3) = Except.ok
      { basic_info :=
          [("File", BVal.s xlOne.fileName),
           ("Error", BVal.s ("No valid sheets found. Available sheets: " ++
              String.intercalate ", " xlOne.sheet_names))] }) :=
  ⟨invalid_sheet_tokens_dropped_amended.1 xlOne.sheet_names "7" (by decide) (by decide),
   invalid_sheet_tokens_dropped_amended.2.1 xlOne.sheet_names "S9" (by decide) (by decide),
   invalid_sheet_tokens_dropped_amended.2.2.1 "7,S9" xlOne.sheet_names (by decide),
   invalid_sheet_tokens_dropped_amended.2.2.2 xlOne true (some "7,S9") (some 3) (by decide)⟩

/-- Entries of a dict after assignment come from the old dict or are
the assigned pair. -/
theorem dictSet_mem {α : Type} (m : List (String × α)) (k : String) (v : α)
    (p : String × α) (hp : p ∈ dictSet m k v) : p ∈ m ∨ p = (k, v) := by
  induction m with
  | nil => simpa [dictSet] using hp
  | cons q rest ih =>
    unfold dictSet at hp
    by_cases hq : q.1 = k
    · rw [if_pos hq] at hp
      rcases List.mem_cons.mp hp with h | h
      · right; exact h
      · left; exact List.mem_cons_of_mem q h
    · rw [if_neg hq] at hp
      rcases List.mem_cons.mp hp with h | h
      · left; exact h ▸ List.mem_cons_self q rest
      · rcases ih h with h2 | h2
        · left; exact List.mem_cons_of_mem q h2
        · right; exact h2

/-- Assignment makes the key look up to the assigned value. -/
theorem dictSet_lookup_self {α : Type} (m : List (String × α)) (k : String) (v : α) :
    (dictSet m k v).lookup k = some v := by
  induction m with
  | nil => simp [dictSet, List.lookup]
  | cons q rest ih =>
    obtain ⟨qk, qv⟩ := q
    unfold dictSet
    by_cases hq : qk = k
    · rw [if_pos hq]
      simp [List.lookup]
    · rw [if_neg hq]
      simp only [List.lookup, beq_eq_false_iff_ne.mpr (Ne.symm hq)]
      exact ih

/-- Assignment leaves other keys' lookups unchanged. -/
theorem dictSet_lookup_ne {α : Type} (m : List (String × α)) (k k2 : String) (v : α)
    (hne : k2 ≠ k) : (dictSet m k v).lookup k2 = m.lookup k2 := by
  induction m with
  | nil => simp [dictSet, List.lookup, beq_eq_false_iff_ne.mpr hne]
  | cons q rest ih =>
    obtain ⟨qk, qv⟩ := q
    unfold dictSet
    by_cases hq : qk = k
    · rw [if_pos hq]
      subst hq
      simp only [List.lookup, beq_eq_false_iff_ne.mpr hne]
    · rw [if_neg hq]
      by_cases h2 : k2 = qk
      · subst h2
        simp [List.lookup]
      · simp only [List.lookup, beq_eq_false_iff_ne.mpr h2]
        exact ih

/-- Every entry of the multi-sheet summaries dict is a successfully
summarized selected sheet (or was already in the accumulator). -/
theorem sheetsLoop_mem (xl : ExcelFile) (v : Bool) (sc : Option Int) :
    ∀ (l : List String) (acc m : List (String × Summary)),
      sheetsLoop xl v sc l acc = Except.ok m → ∀ p ∈ m,
        p ∈ acc ∨ (p.1 ∈ l ∧
          _read_single_excel_sheet p.1 (getSheet xl p.1) v sc = Except.ok p.2) := by
  intro l
  induction l with
  | nil =>
    intro acc m h p hp
    left
    unfold sheetsLoop at h
    injection h with h2
    exact h2 ▸ hp
  | cons nm restL ih =>
    intro acc m h p hp
    unfold sheetsLoop at h
    rcases hr : _read_single_excel_sheet nm (getSheet xl nm) v sc with e | s <;> rw [hr] at h
    · cases h
    · rcases ih _ _ h p hp with hacc | ⟨hmem, hok⟩
      · rcases dictSet_mem acc nm s p hacc with h2 | h2
        · left; exact h2
        · right
          subst h2
          exact ⟨List.mem_cons_self nm restL, hr⟩
      · right
        exact ⟨List.mem_cons_of_mem nm hmem, hok⟩

/-- C8: when the selector resolves to exactly one sheet, `read_excel`
returns that sheet's flat Summary Record with no `sheets` field and a
`basic_info` carrying the total sheet count and the full sheet-name
list; when it resolves to two or more, it returns a record whose
`sheets` mapping holds an independent nested per-sheet record for each
entry, with the flat fields unpopulated at top level. -/
theorem read_excel_single_vs_multi_shape :
    (∀ xl v sel sc nm s, sheets_to_process sel xl.sheet_names = [nm] →
      _read_single_excel_sheet nm (getSheet xl nm) v sc = Except.ok s →
      read_excel xl v sel sc = Except.ok
        { basic_info :=
            dictSet (dictSet (dictSet s.basic_info "File" (BVal.s xl.fileName))
                "Total Sheets" (BVal.n xl.sheet_names.length))
              "All Sheet Names" (BVal.s (String.intercalate ", " xl.sheet_names)),
          columns := s.columns, sample_values := s.sample_values,
          statistics := s.statistics, sample_data := s.sample_data, sheets := none } ∧
      (dictSet (dictSet (dictSet s.basic_info "File" (BVal.s xl.fileName))
            "Total Sheets" (BVal.n xl.sheet_names.length))
          "All Sheet Names" (BVal.s (String.intercalate ", " xl.sheet_names))).lookup
          "Total Sheets" = some (BVal.n xl.sheet_names.length) ∧
      (dictSet (dictSet (dictSet s.basic_info "File" (BVal.s xl.fileName))
            "Total Sheets" (BVal.n xl.sheet_names.length))
          "All Sheet Names" (BVal.s (String.intercalate ", " xl.sheet_names))).lookup
          "All Sheet Names" =
        some (BVal.s (String.intercalate ", " xl.sheet_names))) ∧
    (∀ xl v sel sc nm1 nm2 rest m,
      sheets_to_process sel xl.sheet_names = nm1 :: nm2 :: rest →
      sheetsLoop xl v sc (nm1 :: nm2 :: rest) [] = Except.ok m →
      read_excel xl v sel sc = Except.ok
        { basic_info := multiBasic xl (nm1 :: nm2 :: rest), sheets := some m } ∧
      ∀ p ∈ m, p.1 ∈ nm1 :: nm2 :: rest ∧
        _read_single_excel_sheet p.1 (getSheet xl p.1) v sc = Except.ok p.2) := by
  constructor
  · intro xl v sel sc nm s hsel hread
    refine ⟨?_, ?_, ?_⟩
    · unfold read_excel
      rw [hsel]
      dsimp only
      rw [hread]
    · rw [dictSet_lookup_ne _ _ _ _ (by decide), dictSet_lookup_self]
    · rw [dictSet_lookup_self]
  · intro xl v sel sc nm1 nm2 rest m hsel hloop
    constructor
    · unfold read_excel
      rw [hsel]
      dsimp only
      rw [hloop]
    · intro p hp
      rcases sheetsLoop_mem xl v sc (nm1 :: nm2 :: rest) [] m hloop p hp with h | h
      · cases h
      · exact h

/-- Witness for C8 at one- and two-sheet workbooks. -/
theorem read_excel_single_vs_multi_shape_witness :
    read_excel xlOne false none none = Except.ok
      { basic_info :=
          dictSet (dictSet (dictSet (sheetBase "S1" dfOneRow).basic_info "File"
                (BVal.s xlOne.fileName))
              "Total Sheets" (BVal.n xlOne.sheet_names.length))
            "All Sheet Names" (BVal.s (String.intercalate ", " xlOne.sheet_names)),
        columns := (sheetBase "S1" dfOneRow).columns,
        sample_values := (sheetBase "S1" dfOneRow).sample_values,
        statistics := (sheetBase "S1" dfOneRow).statistics,
        sample_data := (sheetBase "S1" dfOneRow).sample_data,
        sheets := none } ∧
    read_excel xlTwo false (some "0,1") none = Except.ok
      { basic_info := multiBasic xlTwo ["S1", "S2"],
        sheets := some [("S1", sheetBase "S1" dfOneRow), ("S2", sheetBase "S2" dfEmptyCol)] } :=
  ⟨(read_excel_single_vs_multi_shape.1 xlOne false none none "S1" (sheetBase "S1" dfOneRow)
      (by decide) (by decide)).1,
   (read_excel_single_vs_multi_shape.2 xlTwo false (some "0,1") none "S1" "S2" []
      [("S1", sheetBase "S1" dfOneRow), ("S2", sheetBase "S2" dfEmptyCol)]
      (by decide) (by decide)).1⟩

/-- Counterexample to C9: on a frame whose only column is non-numeric
with all values missing, the verbose run raises while the non-verbose
run returns a Summary Record — the two runs do not both produce
records. -/
theorem verbose_can_fail_where_nonverbose_succeeds :
    read_csv "m.csv" dfAllMissing true none =
      Except.error "index 0 is out of bounds for axis 0 with size 0" ∧
    read_csv "m.csv" dfAllMissing false none =
      Except.ok (csvBase "m.csv" dfAllMissing) := by
  constructor <;> decide

/-- Erasing the verbose fields commutes with attaching sample data. -/
theorem stripVerbose_addSampleData (df : DataFrame) (sc : Option Int) (s : Summary) :
    stripVerbose (addSampleData df sc s) = addSampleData df sc (stripVerbose s) := by
  unfold addSampleData
  cases sc with
  | none => rfl
  | some n => by_cases h : (0 : Int) < n <;> simp [h, stripVerbose]

/-- Erasing the verbose fields commutes with attaching geo sample
data. -/
theorem stripVerbose_addGeoSample (g : GeoDataFrame) (sc : Option Int) (s : Summary) :
    stripVerbose (addGeoSample g sc s) = addGeoSample g sc (stripVerbose s) := by
  unfold addGeoSample
  cases sc with
  | none => rfl
  | some n => by_cases h : (0 : Int) < n <;> simp [h, stripVerbose]

/-- A successful verbose CSV read determines the non-verbose read:
erase `sample_values` and `statistics`. -/
theorem read_csv_strip (fn : String) (df : DataFrame) (sc : Option Int) (s : Summary)
    (h : read_csv fn df true sc = Except.ok s) :
    read_csv fn df false sc = Except.ok (stripVerbose s) := by
  unfold read_csv at h ⊢
  rw [if_pos rfl] at h
  rcases hm : statsMap df.cols with e | st <;> rw [hm] at h
  · cases h
  · injection h with h2
    subst h2
    simp only [Bool.false_eq_true, if_false]
    rw [stripVerbose_addSampleData]
    rfl

/-- A successful verbose sheet read determines the non-verbose read. -/
theorem read_sheet_strip (nm : String) (df : DataFrame) (sc : Option Int) (s : Summary)
    (h : _read_single_excel_sheet nm df true sc = Except.ok s) :
    _read_single_excel_sheet nm df false sc = Except.ok (stripVerbose s) := by
  unfold _read_single_excel_sheet at h ⊢
  rw [if_pos rfl] at h
  rcases hm : statsMap df.cols with e | st <;> rw [hm] at h
  · cases h
  · injection h with h2
    subst h2
    simp only [Bool.false_eq_true, if_false]
    rw [stripVerbose_addSampleData]
    rfl

/-- A successful verbose geo read determines the non-verbose read. -/
theorem readGeoCore_strip (fn : String) (g : GeoDataFrame) (sc : Option Int) (s : Summary)
    (h : readGeoCore fn g true sc = Except.ok s) :
    readGeoCore fn g false sc = Except.ok (stripVerbose s) := by
  unfold readGeoCore at h ⊢
  rcases hm : (if geomPresent g then Except.map some (geometryInfo g) else Except.ok none)
    with e | gi? <;> rw [hm] at h
  · cases h
  · injection h with h2
    subst h2
    rw [stripVerbose_addGeoSample]
    cases gi? <;> rfl

/-- Erasing verbose fields of every sheet commutes with dict
assignment. -/
theorem dictSet_stripSheets (m : List (String × Summary)) (k : String) (v : Summary) :
    dictSet (stripSheets m) k (stripVerbose v) = stripSheets (dictSet m k v) := by
  induction m with
  | nil => rfl
  | cons q rest ih =>
    obtain ⟨qk, qv⟩ := q
    show dictSet ((qk, stripVerbose qv) :: stripSheets rest) k (stripVerbose v) = _
    unfold dictSet
    by_cases hq : qk = k
    · simp only [hq, if_true, ite_true]
      rfl
    · simp only [hq, if_false, ite_false]
      show _ = stripSheets ((qk, qv) :: dictSet rest k v)
      unfold stripSheets
      simp only [List.map_cons]
      rw [show (stripSheets rest) = rest.map (fun p => (p.1, stripVerbose p.2)) from rfl] at ih
      rw [ih]
      rfl

/-- Erasing verbose fields commutes with the multi-sheet loop. -/
theorem sheetsLoop_strip (xl : ExcelFile) (sc : Option Int) :
    ∀ (l : List String) (acc m : List (String × Summary)),
      sheetsLoop xl true sc l acc = Except.ok m →
      sheetsLoop xl false sc l (stripSheets acc) = Except.ok (stripSheets m) := by
  intro l
  induction l with
  | nil =>
    intro acc m h
    unfold sheetsLoop at h ⊢
    injection h with h2
    rw [h2]
  | cons nm restL ih =>
    intro acc m h
    unfold sheetsLoop at h ⊢
    rcases hr : _read_single_excel_sheet nm (getSheet xl nm) true sc with e | s <;> rw [hr] at h
    · cases h
    · rw [read_sheet_strip nm (getSheet xl nm) sc s hr]
      dsimp only at h ⊢
      rw [dictSet_stripSheets]
      exact ih _ _ h

/-- A successful verbose excel read determines the non-verbose read. -/
theorem read_excel_strip (xl : ExcelFile) (sel : Option String) (sc : Option Int)
    (es : ExcelSummary) (h : read_excel xl true sel sc = Except.ok es) :
    read_excel xl false sel sc = Except.ok (stripVerboseX es) := by
  unfold read_excel at h ⊢
  rcases hsel : sheets_to_process sel xl.sheet_names with _ | ⟨nm1, _ | ⟨nm2, rest⟩⟩ <;>
      rw [hsel] at h <;> dsimp only at h ⊢
  · injection h with h2
    subst h2
    rfl
  · rcases hr : _read_single_excel_sheet nm1 (getSheet xl nm1) true sc with e | s <;>
        rw [hr] at h <;> dsimp only at h
    · cases h
    · rw [read_sheet_strip nm1 (getSheet xl nm1) sc s hr]
      dsimp only
      injection h with h2
      subst h2
      rfl
  · rcases hl : sheetsLoop xl true sc (nm1 :: nm2 :: rest) [] with e | m <;>
        rw [hl] at h <;> dsimp only at h
    · cases h
    · have hstrip := sheetsLoop_strip xl sc (nm1 :: nm2 :: rest) [] m hl
      rw [show stripSheets ([] : List (String × Summary)) = [] from rfl] at hstrip
      rw [hstrip]
      dsimp only
      injection h with h2
      subst h2
      rfl

/-- C9 (amended): whenever the verbose run returns a Summary Record,
the non-verbose run returns exactly the same record with
`sample_values` and `statistics` erased — so `basic_info`, `columns`,
`geometry_info` and `sample_data` (and every nested sheet record, for
spreadsheets) are identical and the verbose flag only adds the two
verbose fields; the verbose run may instead raise where the non-verbose
one succeeds. -/
theorem verbose_only_adds_fields_amended :
    (∀ s : Summary, (stripVerbose s).basic_info = s.basic_info ∧
      (stripVerbose s).columns = s.columns ∧
      (stripVerbose s).geometry_info = s.geometry_info ∧
      (stripVerbose s).sample_data = s.sample_data ∧
      (stripVerbose s).sample_values = none ∧ (stripVerbose s).statistics = none) ∧
    (∀ fn df sc s, read_csv fn df true sc = Except.ok s →
      read_csv fn df false sc = Except.ok (stripVerbose s)) ∧
    (∀ nm df sc s, _read_single_excel_sheet nm df true sc = Except.ok s →
      _read_single_excel_sheet nm df false sc = Except.ok (stripVerbose s)) ∧
    (∀ fn g sc s, read_geojson fn g true sc = Except.ok s →
      read_geojson fn g false sc = Except.ok (stripVerbose s)) ∧
    (∀ fn g sc s, read_shapefile fn g true sc = Except.ok s →
      read_shapefile fn g false sc = Except.ok (stripVerbose s)) ∧
    (∀ xl sel sc es, read_excel xl true sel sc = Except.ok es →
      read_excel xl false sel sc = Except.ok (stripVerboseX es)) := by
  refine ⟨?_, read_csv_strip, read_sheet_strip, ?_, ?_, read_excel_strip⟩
  · intro s
    exact ⟨rfl, rfl, rfl, rfl, rfl, rfl⟩
  · intro fn g sc s h
    exact readGeoCore_strip fn g sc s h
  · intro fn g sc s h
    exact readGeoCore_strip fn g sc s h

/-- Witness for the amended C9 at concrete verbose-succeeding
inputs. -/
theorem verbose_only_adds_fields_amended_witness :
    ((stripVerbose csvStrV).basic_info = csvStrV.basic_info ∧
      (stripVerbose csvStrV).columns = csvStrV.columns ∧
      (stripVerbose csvStrV).geometry_info = csvStrV.geometry_info ∧
      (stripVerbose csvStrV).sample_data = csvStrV.sample_data ∧
      (stripVerbose csvStrV).sample_values = none ∧
      (stripVerbose csvStrV).statistics = none) ∧
    read_csv "s.csv" dfStrRow false none = Except.ok (stripVerbose csvStrV) ∧
    _read_single_excel_sheet "S" dfStrRow false none = Except.ok (stripVerbose sheetStrV) ∧
    read_geojson "t.geojson" gNoGeom false none = Except.ok (stripVerbose geoStrV) ∧
    read_shapefile "t.geojson" gNoGeom false none = Except.ok (stripVerbose geoStrV) ∧
    read_excel xlStr false none none = Except.ok (stripVerboseX xlStrV) :=
  ⟨verbose_only_adds_fields_amended.1 csvStrV,
   verbose_only_adds_fields_amended.2.1 "s.csv" dfStrRow none csvStrV (by decide),
   verbose_only_adds_fields_amended.2.2.1 "S" dfStrRow none sheetStrV (by decide),
   verbose_only_adds_fields_amended.2.2.2.1 "t.geojson" gNoGeom none geoStrV (by decide),
   verbose_only_adds_fields_amended.2.2.2.2.1 "t.geojson" gNoGeom none geoStrV (by decide),
   verbose_only_adds_fields_amended.2.2.2.2.2 xlStr none none xlStrV (by decide)⟩
